import Mathlib

/-!
Verification development for the ClaudeCode checkpoint/recovery core.

The definitions below are a shallow embedding of the Python sources
`project_management/scripts/checkpoint_recovery.py`,
`project_management/scripts/auto_checkpoint.py` and the checkpoint-saving
slice of `project_management/scripts/resume_progress.py`.  File-system
effects are made explicit: checkpoint directories become lists of parsed
files, the live progress record and the recovery log become fields of an
explicit system state, and fallible I/O operations (backup copy, state
write, snapshot copy, log append) are driven by an explicit environment of
outcomes.
-/

namespace ClaudeCode

/-! ### Decimal formatting of checkpoint counters

Python renders the allocated counter with the format string `"%03d"`
(zero-padded to width three).  `natDigitsAux` produces the big-endian
decimal digits with explicit fuel so that it reduces in the kernel. -/

def digitChar (d : Nat) : Char :=
  match d with
  | 0 => '0' | 1 => '1' | 2 => '2' | 3 => '3' | 4 => '4'
  | 5 => '5' | 6 => '6' | 7 => '7' | 8 => '8' | 9 => '9'
  | _ => '0'

def natDigitsAux : Nat → Nat → List Char
  | 0, _ => []
  | fuel + 1, n =>
      if n < 10 then [digitChar n]
      else natDigitsAux fuel (n / 10) ++ [digitChar (n % 10)]

def natDigits (n : Nat) : List Char := natDigitsAux (n + 1) n

/-- The characters of `f"{n:03d}"`: pad on the left with zeros up to width 3. -/
def pad3chars (n : Nat) : List Char :=
  if n < 10 then '0' :: '0' :: natDigits n
  else if n < 100 then '0' :: natDigits n
  else natDigits n

/-- Decimal value of a character string (used only to invert `pad3chars`). -/
def valCh (l : List Char) : Nat :=
  l.foldl (fun a c => a * 10 + (c.toNat - 48)) 0

def autoCPchars : List Char := ['A', 'U', 'T', 'O', '_', 'C', 'P']

def cpChars : List Char := ['C', 'P']

def jsonChars : List Char := ['.', 'j', 's', 'o', 'n']

/-- The id `f"AUTO_CP{count:03d}"` written by `_create_auto_checkpoint`. -/
def autoIdStr (n : Nat) : String := String.mk (autoCPchars ++ pad3chars n)

/-- The id `f"CP{count:03d}"` written by `checkpoint_save`. -/
def cpIdStr (n : Nat) : String := String.mk (cpChars ++ pad3chars n)

/-- The glob pattern `AUTO_CP*.json` used to count and prune automatic
checkpoint files. -/
def globAuto (s : String) : Bool :=
  autoCPchars.isPrefixOf s.data && jsonChars.isSuffixOf s.data

/-! ### Data model

`CheckpointInfo` embeds the `checkpoint` sub-object of a checkpoint file.
Optional fields model presence or absence of the corresponding JSON key
(every read in the source goes through `.get` with a default, except the
five required-field membership tests of `validate_checkpoint`). -/

structure CheckpointInfo where
  checkpoint_id : Option String := none
  timestamp : Option String := none
  description : Option String := none
  phase : Option Nat := none
  task : Option String := none
  ctype : Option String := none
  files_modified : List String := []
  files_created : List String := []
  completion_percentage : Nat := 0
  validation_status : Option String := none
  deriving DecidableEq

/-- The `metadata` section of a ProgressRecord (fields the core reads). -/
structure MetaB where
  current_phase : Nat := 1
  overall_progress : Nat := 0
  last_updated : String := ""
  deriving DecidableEq

/-- The `current_session` section of a ProgressRecord. -/
structure SessB where
  session_id : String := ""
  active_task : String := "UNKNOWN"
  last_activity : String := ""
  context_summary : String := ""
  deriving DecidableEq

/-- A summary entry of the ProgressRecord's `checkpoints` list.  Automatic
entries carry `"type": "AUTO"`; entries appended by the manual
`checkpoint_save` carry no `type` key. -/
structure CheckSummary where
  id : String
  ctype : Option String := none
  deriving DecidableEq

/-- An entry of the `recovery_history` list appended during recovery. -/
structure RecHistEntry where
  recovered_from : String
  recovery_time : String
  previous_state_backed_up : Bool
  deriving DecidableEq

/-- The ProgressRecord document.  `metadata`/`current_session`/`phases`
model presence of the corresponding sections; an absent `recovery_history`
key behaves exactly like the empty list in the source, so it is a plain
list here. -/
structure FullState where
  metadata : Option MetaB := none
  current_session : Option SessB := none
  phases : Bool := false
  checkpoints : List CheckSummary := []
  recovery_history : List RecHistEntry := []
  deriving DecidableEq

/-- Parsed content of a checkpoint file:
`{ "checkpoint": {...}, "full_state": {...} }`. -/
structure CheckpointData where
  checkpoint : CheckpointInfo := {}
  full_state : FullState := {}
  deriving DecidableEq

instance {ε α : Type} [DecidableEq ε] [DecidableEq α] :
    DecidableEq (Except ε α) := fun a b =>
  match a, b with
  | .error e, .error f =>
      if h : e = f then .isTrue (by rw [h])
      else .isFalse (fun hc => by cases hc; exact h rfl)
  | .ok x, .ok y =>
      if h : x = y then .isTrue (by rw [h])
      else .isFalse (fun hc => by cases hc; exact h rfl)
  | .error _, .ok _ => .isFalse (fun hc => by cases hc)
  | .ok _, .error _ => .isFalse (fun hc => by cases hc)

/-- A file in the checkpoints directory: either it parses to
`CheckpointData` or opening/parsing it raises (`Except.error`). -/
structure CPFile where
  content : Except String CheckpointData
  size : Nat := 0
  deriving DecidableEq

/-- One value of the `file_checks` map of a validation result. -/
structure FCheck where
  fexists : Bool
  readable : Bool
  size : Nat
  deriving DecidableEq

/-- The dictionary returned by `validate_checkpoint`. -/
structure ValidationResult where
  checkpoint_id : String
  valid : Bool := false
  issues : List String := []
  warnings : List String := []
  file_checks : List (String × FCheck) := []
  data_integrity : Bool := false
  recovery_feasible : Bool := false
  deriving DecidableEq

/-- The dictionary returned by `recover_from_checkpoint`. -/
structure RecoveryResult where
  checkpoint_id : String
  success : Bool := false
  backup_created : Bool := false
  files_restored : List String := []
  files_failed : List String := []
  state_restored : Bool := false
  recovery_time : String := ""
  messages : List String := []
  deriving DecidableEq

/-- One line of the append-only `recovery.log`. -/
structure LogEntry where
  timestamp : String
  operation : String
  checkpoint_id : String
  success : Bool
  files_restored : Nat
  files_failed : Nat
  messages : List String
  deriving DecidableEq

/-- The mutable file-system footprint of the recovery manager: the live
ProgressRecord, the project files (path, content), the backup directory
and the recovery log. -/
structure SysState where
  stateFile : Option FullState := none
  projectFiles : List (String × String) := []
  backups : List (String × FullState) := []
  recoveryLog : List LogEntry := []
  deriving DecidableEq

/-- Environment of I/O outcomes and clock readings for one recovery call:
whether the backup copy, the state write, each snapshot copy and the log
append succeed, which snapshots exist, and the timestamp strings. -/
structure REnv where
  readable : String → Bool
  backup_ok : Bool
  backup_name : String
  write_ok : Bool
  write_err : String
  snapshot : String → String → Option String
  copy_ok : String → Bool
  log_ok : Bool
  now : String
  stamp : String

/-! ### Recovery manager operations (`checkpoint_recovery.py`) -/

/-- `_find_checkpoint_file`: linear scan of the checkpoints directory that
skips every file that fails to open or parse and returns the first file
whose embedded `checkpoint_id` equals the requested id. -/
def findCheckpointFile (files : List CPFile) (cid : String) : Option CPFile :=
  match files with
  | [] => none
  | f :: rest =>
      match f.content with
      | .error _ => findCheckpointFile rest cid
      | .ok d =>
          if d.checkpoint.checkpoint_id = some cid then some f
          else findCheckpointFile rest cid

/-- An entry of the list returned by `list_checkpoints`. -/
structure CPEntry where
  id : String
  timestamp : String
  description : String
  ctype : String
  phase : Nat
  task : String
  progress : Nat
  file_size : Nat
  validation_status : String
  deriving DecidableEq

def entryOf (f : CPFile) (d : CheckpointData) : CPEntry :=
  { id := d.checkpoint.checkpoint_id.getD "UNKNOWN"
    timestamp := d.checkpoint.timestamp.getD ""
    description := d.checkpoint.description.getD ""
    ctype := d.checkpoint.ctype.getD "MANUAL"
    phase := d.checkpoint.phase.getD 0
    task := d.checkpoint.task.getD ""
    progress := d.checkpoint.completion_percentage
    file_size := f.size
    validation_status := d.checkpoint.validation_status.getD "UNKNOWN" }

/-- The gathering loop of `list_checkpoints`: the whole `for` loop sits in
one `try`, so the first file that fails to open or parse aborts the loop
and the entries collected so far are returned. -/
def gatherEntries : List CPFile → List CPEntry
  | [] => []
  | f :: rest =>
      match f.content with
      | .error _ => []
      | .ok d => entryOf f d :: gatherEntries rest

/-- Stable insertion used to model Python's stable
`sort(key=timestamp, reverse=True)`. -/
def insertTsDesc (e : CPEntry) : List CPEntry → List CPEntry
  | [] => [e]
  | x :: xs => if x.timestamp < e.timestamp then e :: x :: xs
               else x :: insertTsDesc e xs

def sortTsDesc (l : List CPEntry) : List CPEntry :=
  l.foldl (fun acc e => insertTsDesc e acc) []

/-- `list_checkpoints`: gather (stopping at the first unreadable file),
then sort newest-first by timestamp. -/
def listCheckpoints (files : List CPFile) : List CPEntry :=
  sortTsDesc (gatherEntries files)

def requiredFieldNames : List String :=
  ["checkpoint_id", "timestamp", "description", "phase", "task"]

/-- The names of the five required fields missing from a checkpoint
sub-object, in the order `validate_checkpoint` tests them. -/
def missingFieldNames (info : CheckpointInfo) : List String :=
  (if info.checkpoint_id.isSome then [] else ["checkpoint_id"]) ++
  (if info.timestamp.isSome then [] else ["timestamp"]) ++
  (if info.description.isSome then [] else ["description"]) ++
  (if info.phase.isSome then [] else ["phase"]) ++
  (if info.task.isSome then [] else ["task"])

/-- Presence of the five required top-level fields of the `checkpoint`
sub-object. -/
def requiredFieldsPresent (info : CheckpointInfo) : Bool :=
  info.checkpoint_id.isSome && info.timestamp.isSome &&
  info.description.isSome && info.phase.isSome && info.task.isSome

def missingSectionNames (s : FullState) : List String :=
  (if s.metadata.isSome then [] else ["metadata"]) ++
  (if s.current_session.isSome then [] else ["current_session"]) ++
  (if s.phases then [] else ["phases"])

def fileExistsIn (proj : List (String × String)) (p : String) : Bool :=
  (proj.lookup p).isSome

def fileSizeIn (proj : List (String × String)) (p : String) : Nat :=
  match proj.lookup p with
  | some c => c.length
  | none => 0

def allReferencedFiles (info : CheckpointInfo) : List String :=
  info.files_modified ++ info.files_created

/-- The body of `validate_checkpoint` once the checkpoint file has been
found and parsed (lines 100-140 of `checkpoint_recovery.py`). -/
def validateParsed (cid : String) (d : CheckpointData)
    (proj : List (String × String)) (readableF : String → Bool) :
    ValidationResult :=
  let info := d.checkpoint
  let missing := missingFieldNames info
  let issues :=
    if missing.isEmpty then []
    else ["Missing required fields: " ++ String.intercalate ", " missing]
  let dataIntegrity := missing.isEmpty
  let missSec := missingSectionNames d.full_state
  let warns1 :=
    if missSec.isEmpty then []
    else ["Missing state sections: " ++ String.intercalate ", " missSec]
  let allFiles := allReferencedFiles info
  let checks := allFiles.dedup.map fun p =>
    (p, { fexists := fileExistsIn proj p
          readable := fileExistsIn proj p && readableF p
          size := fileSizeIn proj p : FCheck })
  let hasCritical := !issues.isEmpty
  let hasFileIssues := checks.any fun pc => !pc.2.fexists
  { checkpoint_id := cid
    valid := !hasCritical && dataIntegrity
    issues := issues
    warnings := warns1 ++
      (if hasFileIssues then ["Some referenced files are missing or inaccessible"] else [])
    file_checks := checks
    data_integrity := dataIntegrity
    recovery_feasible := (!hasCritical && dataIntegrity) && !hasFileIssues }

/-- `validate_checkpoint`: locate the checkpoint file, fail fast with an
issue if it is absent or corrupted, otherwise run the structural, state
and file-reference checks. -/
def validateCheckpoint (files : List CPFile) (cid : String)
    (proj : List (String × String)) (readableF : String → Bool) :
    ValidationResult :=
  match findCheckpointFile files cid with
  | none =>
      { checkpoint_id := cid
        issues := ["Checkpoint file not found for " ++ cid] }
  | some f =>
      match f.content with
      | .error e =>
          { checkpoint_id := cid
            issues := ["Checkpoint file is corrupted: " ++ e] }
      | .ok d => validateParsed cid d proj readableF

/-- `_create_recovery_backup`: returns `true` without copying when no live
state file exists; otherwise copies the state file into the backup
directory, returning `false` when the copy raises. -/
def createRecoveryBackup (st : SysState) (env : REnv) : Bool × SysState :=
  match st.stateFile with
  | none => (true, st)
  | some s =>
      if env.backup_ok then
        (true, { st with backups := st.backups ++ [(env.backup_name, s)] })
      else (false, st)

/-- The state-restoration step of `recover_from_checkpoint` (lines
186-210): stamp the embedded full state with fresh recovery metadata and
write it over the live ProgressRecord.  A missing `metadata` or
`current_session` section raises a `KeyError` before anything is written;
a failing write raises at `json.dump`. -/
def restoreStamp (s : FullState) (cid : String) (backupOk : Bool)
    (env : REnv) : Except String FullState :=
  match s.metadata with
  | none => .error "metadata"
  | some m =>
      match s.current_session with
      | none => .error "current_session"
      | some cs =>
          if env.write_ok then
            .ok { s with
                  metadata := some { m with last_updated := env.now }
                  current_session := some
                    { cs with
                      session_id := "recovery_" ++ env.stamp
                      last_activity := env.now }
                  recovery_history := s.recovery_history ++
                    [{ recovered_from := cid
                       recovery_time := env.now
                       previous_state_backed_up := backupOk }] }
          else .error env.write_err

/-- One iteration of the snapshot-replay loop (lines 215-229): restore a
file from its per-checkpoint snapshot when one exists, isolating any copy
failure to that file. -/
def replayOne (cid : String) (env : REnv)
    (acc : List String × List String × List String × List (String × String))
    (p : String) :
    List String × List String × List String × List (String × String) :=
  let (restored, failed, msgs, proj) := acc
  match env.snapshot cid p with
  | some content =>
      if env.copy_ok p then
        (restored ++ [p], failed, msgs,
         (proj.filter fun q => q.1 ≠ p) ++ [(p, content)])
      else
        (restored, failed ++ [p],
         msgs ++ ["Failed to restore " ++ p], proj)
  | none => (restored, failed, msgs ++ ["No snapshot found for " ++ p], proj)

def replayFiles (cid : String) (env : REnv) (paths : List String)
    (proj : List (String × String)) :
    List String × List String × List String × List (String × String) :=
  paths.foldl (replayOne cid env) ([], [], [], proj)

/-- The log record built by `_log_recovery_operation`.  It is written
before the final `success` flag and completion message are set, so it
captures the result as it stands at that point. -/
def mkLogEntry (cid : String) (r : RecoveryResult) (env : REnv) : LogEntry :=
  { timestamp := env.now
    operation := "CHECKPOINT_RECOVERY"
    checkpoint_id := cid
    success := r.success
    files_restored := r.files_restored.length
    files_failed := r.files_failed.length
    messages := r.messages }

/-- Steps (2)-(5) of `recover_from_checkpoint`, run once validation has
passed and the checkpoint file has been found and parsed: back up,
overwrite the live state, replay per-file snapshots, append a log record
and compute `success = state_restored and files_failed empty`. -/
def recoverRun (cid : String) (st : SysState) (env : REnv)
    (d : CheckpointData) : RecoveryResult × SysState :=
  let r0 : RecoveryResult := { checkpoint_id := cid, recovery_time := env.now }
  let cb := createRecoveryBackup st env
  let backupOk := cb.1
  let st1 := cb.2
  let msgs1 :=
    if backupOk then ([] : List String)
    else ["Warning: Could not create recovery backup"]
  let rs := restoreStamp d.full_state cid backupOk env
  let stateRestored := rs.toOption.isSome
  let msgs2 :=
    match rs with
    | .ok _ => ["Progress state restored successfully"]
    | .error e => ["Failed to restore progress state: " ++ e]
  let st2 :=
    match rs with
    | .ok s' => { st1 with stateFile := some s' }
    | .error _ => st1
  let toRestore := allReferencedFiles d.checkpoint
  let rep := replayFiles cid env toRestore st2.projectFiles
  let restored := rep.1
  let failed := rep.2.1
  let msgs3 := rep.2.2.1
  let st3 := { st2 with projectFiles := rep.2.2.2 }
  let rLogged : RecoveryResult :=
    { r0 with
      backup_created := backupOk
      state_restored := stateRestored
      files_restored := restored
      files_failed := failed
      messages := msgs1 ++ msgs2 ++ msgs3 }
  let st4 :=
    if env.log_ok then
      { st3 with recoveryLog := st3.recoveryLog ++ [mkLogEntry cid rLogged env] }
    else st3
  let succ := stateRestored && failed.isEmpty
  let finalMsg :=
    if succ then "Recovery from " ++ cid ++ " completed successfully"
    else "Recovery from " ++ cid ++ " completed with issues"
  ({ rLogged with
     success := succ
     messages := rLogged.messages ++ [finalMsg] }, st4)

/-- `recover_from_checkpoint`: validate, reject without any mutation when
the checkpoint is not recovery-feasible, otherwise run the
backup/restore/replay/log sequence. -/
def recoverFromCheckpoint (files : List CPFile) (cid : String)
    (st : SysState) (env : REnv) : RecoveryResult × SysState :=
  let v := validateCheckpoint files cid st.projectFiles env.readable
  let r0 : RecoveryResult := { checkpoint_id := cid, recovery_time := env.now }
  if !v.recovery_feasible then
    ({ r0 with messages := "Checkpoint validation failed" :: v.issues }, st)
  else
    match findCheckpointFile files cid with
    | none =>
        ({ r0 with messages := ["Recovery failed: checkpoint file not found"] }, st)
    | some f =>
        match f.content with
        | .error e => ({ r0 with messages := ["Recovery failed: " ++ e] }, st)
        | .ok d => recoverRun cid st env d

/-- The candidate checkpoints that `emergency_recovery` iterates over: it
considers exactly the entries returned by `list_checkpoints`. -/
def emergencyCandidateIds (files : List CPFile) : List String :=
  (listCheckpoints files).map fun e => e.id

inductive EmergencyOutcome
  | noCheckpoints
  | noneFeasible
  | attempted (r : RecoveryResult × SysState)

/-- `emergency_recovery`: walk `list_checkpoints` newest-first and recover
from the first candidate whose validation is recovery-feasible. -/
def emergencyRecovery (files : List CPFile) (st : SysState) (env : REnv) :
    EmergencyOutcome :=
  let cps := listCheckpoints files
  if cps.isEmpty then .noCheckpoints
  else
    match cps.find? (fun e =>
        (validateCheckpoint files e.id st.projectFiles env.readable).recovery_feasible) with
    | some e => .attempted (recoverFromCheckpoint files e.id st env)
    | none => .noneFeasible

/-! ### Trigger daemon (`auto_checkpoint.py`) -/

inductive TriggerReason
  | TIME_BASED
  | ACTIVITY_BASED
  | STATE_CHANGE
  | MANUAL_TRIGGER
  deriving DecidableEq

structure DaemonCfg where
  interval : Nat := 1800
  threshold : Nat := 3
  deriving DecidableEq

/-- The daemon state touched by the decision loop: the time of the last
checkpoint, the shared file-change counter and the sticky state hash of
`_state_changed`. -/
structure DaemonSt where
  last_checkpoint_time : Nat
  file_change_count : Nat := 0
  last_state_hash : Option Nat := none
  deriving DecidableEq

/-- `_state_changed`: hash the ProgressRecord (`none` models a missing or
unreadable file, which returns `False`); the first observation only
establishes the baseline. -/
def stateChangedStep (cur : Option Nat) (last : Option Nat) :
    Bool × Option Nat :=
  match cur with
  | none => (false, last)
  | some h =>
      match last with
      | none => (false, some h)
      | some h0 => if h = h0 then (false, some h0) else (true, some h)

/-- One cycle of `_checkpoint_loop` (lines 109-140): choose at most one
trigger reason in priority order TIME_BASED, ACTIVITY_BASED, STATE_CHANGE
and, on firing, reset the last-checkpoint time to the cycle's current
time and the change counter to zero. -/
def cycleStep (cfg : DaemonCfg) (ds : DaemonSt) (now : Nat)
    (cur : Option Nat) : Option TriggerReason × DaemonSt :=
  let elapsed := now - ds.last_checkpoint_time
  if elapsed ≥ cfg.interval then
    (some .TIME_BASED,
     { ds with last_checkpoint_time := now, file_change_count := 0 })
  else if ds.file_change_count ≥ cfg.threshold then
    (some .ACTIVITY_BASED,
     { ds with last_checkpoint_time := now, file_change_count := 0 })
  else
    let (chg, h') := stateChangedStep cur ds.last_state_hash
    if chg then
      (some .STATE_CHANGE,
       { last_checkpoint_time := now, file_change_count := 0,
         last_state_hash := h' })
    else (none, { ds with last_state_hash := h' })

/-! ### Checkpoint-id allocation and retention pruning -/

/-- The id allocated by `_create_auto_checkpoint` (lines 227-229): count
the files matching `AUTO_CP*.json` and add one. -/
def autoCheckpointId (dirNames : List String) : String :=
  autoIdStr ((dirNames.filter globAuto).length + 1)

/-- The id allocated by `checkpoint_save` (lines 155-157 of
`resume_progress.py`): count all entries of the ProgressRecord's
`checkpoints` list — of any type — and add one. -/
def manualCheckpointId (s : FullState) : String :=
  cpIdStr (s.checkpoints.length + 1)

/-- Formulation following the spec's words, for comparison: the manual
allocator "counts existing records of the matching prefix (manual `CP`)",
i.e. only the entries that are not automatic. -/
def specManualCheckpointId (s : FullState) : String :=
  cpIdStr ((s.checkpoints.filter fun c => c.ctype ≠ some "AUTO").length + 1)

/-- `_cleanup_old_checkpoints`: sort the `AUTO_CP*.json` files by
creation order (the list order here) and delete the oldest beyond
`maxC`. -/
def pruneAutos (maxC : Nat) (store1 : List String) : List String :=
  let autos := store1.filter globAuto
  if autos.length > maxC then
    store1.filter fun f => f ∉ autos.take (autos.length - maxC)
  else store1

def createStep (maxC : Nat) (stamp : String) (store : List String) :
    String × List String :=
  let cid := autoCheckpointId store
  let fname := String.mk (cid.data ++ ('_' :: stamp.data) ++ jsonChars)
  (cid, pruneAutos maxC (store ++ [fname]))

/-- Run a sequence of automatic checkpoint creations (one per timestamp
string), returning the written ids in order and the final directory. -/
def runAuto' (maxC : Nat) : List String → List String →
    List String × List String
  | [], store => ([], store)
  | stamp :: stamps, store =>
      let (cid, store') := createStep maxC stamp store
      let (ids, storeF) := runAuto' maxC stamps store'
      (cid :: ids, storeF)

def runAuto (maxC : Nat) (stamps : List String) :
    List String × List String :=
  runAuto' maxC stamps []

/-! ### Shared change-counter accesses as atomic events

CPython executes `self.file_change_count += len(changes)` as a separate
load and store, and the decision loop's threshold read and its later
reset to zero are separate statements with the whole checkpoint creation
between them.  `ctrStep` gives each of these four memory accesses as one
atomic event so that interleavings of the two unsynchronized loops can be
examined. -/

inductive CtrAct
  | mread
  | mwrite (k : Nat)
  | dread
  | dreset
  deriving DecidableEq

structure CtrSt where
  c : Nat
  regM : Nat := 0
  regD : Nat := 0
  fired : List Nat := []
  deriving DecidableEq

def ctrThreshold : Nat := 3

def ctrStep (s : CtrSt) : CtrAct → CtrSt
  | .mread => { s with regM := s.c }
  | .mwrite k => { s with c := s.regM + k }
  | .dread => { s with regD := s.c }
  | .dreset =>
      if s.regD ≥ ctrThreshold then
        { s with c := 0, fired := s.fired ++ [s.regD] }
      else s

def runCtr (s : CtrSt) (acts : List CtrAct) : CtrSt :=
  acts.foldl ctrStep s

def totalIncs (acts : List CtrAct) : Nat :=
  acts.foldl (fun a act => match act with | .mwrite k => a + k | _ => a) 0

/-- Counter accounting: every increment is either still in the counter or
was observed by a firing read.  Mutual exclusion makes this an invariant;
the unlocked interleaving below violates it. -/
def ctrConserved (s0 : CtrSt) (acts : List CtrAct) : Prop :=
  s0.c + totalIncs acts = ((runCtr s0 acts).fired).sum + (runCtr s0 acts).c

/-! ### Concrete sample inputs used by witnesses -/

def sampleMeta : MetaB :=
  { current_phase := 2, overall_progress := 40, last_updated := "t0" }

def sampleSess : SessB :=
  { session_id := "sess_1", active_task := "P2.1.4",
    last_activity := "t0", context_summary := "working on validator" }

def sampleState : FullState :=
  { metadata := some sampleMeta, current_session := some sampleSess,
    phases := true,
    checkpoints := [{ id := "AUTO_CP001", ctype := some "AUTO" }] }

def sampleInfoClean : CheckpointInfo :=
  { checkpoint_id := some "CP001", timestamp := some "2025-01-01T00:00:00",
    description := some "manual save", phase := some 2,
    task := some "P2.1.4" }

def sampleInfoMissingFile : CheckpointInfo :=
  { sampleInfoClean with files_modified := ["src/app.py"] }

def sampleDataClean : CheckpointData :=
  { checkpoint := sampleInfoClean, full_state := sampleState }

def sampleDataMissingFile : CheckpointData :=
  { checkpoint := sampleInfoMissingFile, full_state := sampleState }

def sampleFileClean : CPFile := { content := .ok sampleDataClean }

def sampleFileMissingFile : CPFile := { content := .ok sampleDataMissingFile }

def sampleSys : SysState := { stateFile := some sampleState }

def sampleBadFile : CPFile := { content := .error "Expecting value" }

def sampleEnv : REnv :=
  { readable := fun _ => true
    backup_ok := true
    backup_name := "pre_recovery_20250101_000000.json"
    write_ok := true
    write_err := "disk full"
    snapshot := fun _ _ => none
    copy_ok := fun _ => true
    log_ok := true
    now := "2025-01-01T00:00:01"
    stamp := "20250101_0000" }

/-! ## Helper lemmas -/

theorem digitChar_toNat (d : Nat) (h : d < 10) : (digitChar d).toNat = 48 + d := by
  interval_cases d <;> rfl

theorem valCh_append_one (l : List Char) (c : Char) :
    valCh (l ++ [c]) = valCh l * 10 + (c.toNat - 48) := by
  simp [valCh, List.foldl_append]

theorem valCh_natDigitsAux (fuel n : Nat) (h : n < fuel) :
    valCh (natDigitsAux fuel n) = n := by
  induction fuel generalizing n with
  | zero => omega
  | succ k ih =>
      by_cases h10 : n < 10
      · simp only [natDigitsAux, if_pos h10, valCh, List.foldl]
        rw [digitChar_toNat n h10]
        omega
      · have hdiv : n / 10 < k := by
          have h1 : n / 10 < n := Nat.div_lt_self (by omega) (by omega)
          omega
        simp only [natDigitsAux, if_neg h10]
        rw [valCh_append_one, ih _ hdiv,
            digitChar_toNat (n % 10) (Nat.mod_lt _ (by omega))]
        omega

theorem valCh_natDigits (n : Nat) : valCh (natDigits n) = n :=
  valCh_natDigitsAux (n + 1) n (Nat.lt_succ_self n)

theorem valCh_cons_zero (l : List Char) : valCh ('0' :: l) = valCh l := rfl

theorem valCh_pad3 (n : Nat) : valCh (pad3chars n) = n := by
  unfold pad3chars
  split
  · rw [valCh_cons_zero, valCh_cons_zero, valCh_natDigits]
  · split
    · rw [valCh_cons_zero, valCh_natDigits]
    · exact valCh_natDigits n

theorem pad3chars_inj {m n : Nat} (h : pad3chars m = pad3chars n) : m = n := by
  have := congrArg valCh h
  rwa [valCh_pad3, valCh_pad3] at this

theorem autoIdStr_inj {m n : Nat} (h : autoIdStr m = autoIdStr n) : m = n := by
  have hdata := congrArg String.data h
  simp only [autoIdStr] at hdata
  exact pad3chars_inj (List.append_cancel_left hdata)

theorem isPrefixOf_append_self (l r : List Char) :
    l.isPrefixOf (l ++ r) = true := by
  rw [List.isPrefixOf_iff_prefix]
  exact List.prefix_append l r

theorem isSuffixOf_append_self (l r : List Char) :
    r.isSuffixOf (l ++ r) = true := by
  rw [List.isSuffixOf_iff_suffix]
  exact List.suffix_append l r

theorem globAuto_mk (mid : List Char) :
    globAuto (String.mk (autoCPchars ++ mid ++ jsonChars)) = true := by
  simp only [globAuto, Bool.and_eq_true]
  constructor
  · have : autoCPchars ++ mid ++ jsonChars =
        autoCPchars ++ (mid ++ jsonChars) := by simp
    rw [this]
    exact isPrefixOf_append_self _ _
  · exact isSuffixOf_append_self _ _

theorem any_map_comp {α β : Type} (l : List α) (f : α → β) (p : β → Bool) :
    (l.map f).any p = l.any fun a => p (f a) := by
  induction l with
  | nil => rfl
  | cons x xs ih => simp [List.any, ih]

theorem any_dedup {α : Type} [DecidableEq α] (l : List α) (p : α → Bool) :
    l.dedup.any p = l.any p := by
  cases ha : l.dedup.any p <;> cases hb : l.any p <;>
    simp_all [List.any_eq_true, List.mem_dedup]
  · obtain ⟨x, hx, hpx⟩ := hb
    exact absurd hpx (by simpa using ha x hx)
  · obtain ⟨x, hx, hpx⟩ := ha
    exact absurd hpx (by simpa using hb x hx)

theorem any_not_eq_not_all {α : Type} (l : List α) (p : α → Bool) :
    (l.any fun a => !p a) = !l.all p := by
  induction l with
  | nil => rfl
  | cons x xs ih => simp [List.any, List.all, ih]

theorem natDigitsAux_small (fuel n : Nat) (hf : 0 < fuel) (h : n < 10) :
    natDigitsAux fuel n = [digitChar n] := by
  cases fuel with
  | zero => omega
  | succ k => simp [natDigitsAux, h]

theorem natDigits_len1 (n : Nat) (h : n < 10) :
    (natDigits n).length = 1 := by
  rw [natDigits, natDigitsAux_small _ _ (by omega) h]
  rfl

theorem natDigits_len2 (n : Nat) (h1 : 10 ≤ n) (h2 : n < 100) :
    (natDigits n).length = 2 := by
  have hd : n / 10 < 10 := by omega
  rw [natDigits]
  simp only [natDigitsAux, if_neg (by omega : ¬ n < 10)]
  rw [natDigitsAux_small _ _ (by omega) hd]
  rfl

theorem natDigitsAux_ge10 (fuel m : Nat) (hm : 10 ≤ m) :
    natDigitsAux (fuel + 1) m =
      natDigitsAux fuel (m / 10) ++ [digitChar (m % 10)] := by
  simp [natDigitsAux, if_neg (by omega : ¬ m < 10)]

theorem natDigits_len3 (n : Nat) (h1 : 100 ≤ n) (h2 : n < 1000) :
    (natDigits n).length = 3 := by
  obtain ⟨k, rfl⟩ : ∃ k, n = k + 1 := ⟨n - 1, by omega⟩
  rw [natDigits, natDigitsAux_ge10 _ _ (by omega),
      natDigitsAux_ge10 _ _ (by omega : 10 ≤ (k + 1) / 10),
      natDigitsAux_small k _ (by omega) (by omega)]
  rfl

theorem pad3chars_len (n : Nat) (h : n < 1000) : (pad3chars n).length = 3 := by
  unfold pad3chars
  split
  · next h10 => simp [natDigits_len1 n h10]
  · next h10 =>
      split
      · next h100 => simp [natDigits_len2 n (by omega) h100]
      · next h100 => exact natDigits_len3 n (by omega) h

/-! Trace lemmas for checkpoint-id uniqueness without pruning. -/

theorem pruneAutos_noop (maxC : Nat) (l : List String)
    (hg : ∀ f ∈ l, globAuto f = true) (hl : l.length ≤ maxC) :
    pruneAutos maxC l = l := by
  simp only [pruneAutos]
  rw [List.filter_eq_self.mpr hg, if_neg (by omega)]

theorem runAuto'_ids (maxC : Nat) :
    ∀ (stamps : List String) (store : List String) (k : Nat),
      store.length = k →
      (∀ f ∈ store, globAuto f = true) →
      k + stamps.length ≤ maxC →
      (runAuto' maxC stamps store).1 =
        (List.range stamps.length).map
          (fun i => autoIdStr (k + i + 1)) := by
  intro stamps
  induction stamps with
  | nil => intro store k _ _ _; rfl
  | cons stamp stamps ih =>
      intro store k hk hglob hlen
      subst hk
      simp only [List.length_cons] at hlen
      have hfilter : store.filter globAuto = store :=
        List.filter_eq_self.mpr hglob
      have hcid : autoCheckpointId store = autoIdStr (store.length + 1) := by
        rw [autoCheckpointId, hfilter]
      have hfname :
          globAuto (String.mk ((autoIdStr (store.length + 1)).data ++
            ('_' :: stamp.data) ++ jsonChars)) = true := by
        have heq : (autoIdStr (store.length + 1)).data ++
            ('_' :: stamp.data) ++ jsonChars =
            autoCPchars ++ (pad3chars (store.length + 1) ++
              ('_' :: stamp.data)) ++ jsonChars := by
          simp [autoIdStr]
        rw [heq]
        exact globAuto_mk _
      have hglob1 : ∀ f ∈ store ++
          [String.mk ((autoIdStr (store.length + 1)).data ++
            ('_' :: stamp.data) ++ jsonChars)], globAuto f = true := by
        intro f hf
        rcases List.mem_append.mp hf with hl | hr
        · exact hglob f hl
        · rw [List.mem_singleton.mp hr]; exact hfname
      have hlen1 : (store ++ [String.mk ((autoIdStr (store.length + 1)).data ++
          ('_' :: stamp.data) ++ jsonChars)]).length = store.length + 1 := by
        simp
      have hlenle : (store ++ [String.mk ((autoIdStr (store.length + 1)).data ++
          ('_' :: stamp.data) ++ jsonChars)]).length ≤ maxC := by
        rw [hlen1]; omega
      have hlen2 : (store ++ [String.mk ((autoIdStr (store.length + 1)).data ++
          ('_' :: stamp.data) ++ jsonChars)]).length + stamps.length ≤ maxC := by
        rw [hlen1]; omega
      have hstep : createStep maxC stamp store =
          (autoIdStr (store.length + 1),
           store ++ [String.mk ((autoIdStr (store.length + 1)).data ++
             ('_' :: stamp.data) ++ jsonChars)]) := by
        simp only [createStep, hcid]
        rw [pruneAutos_noop maxC _ hglob1 hlenle]
      have hrec := ih _ (store.length + 1) hlen1 hglob1 (by omega)
      simp only [runAuto', hstep]
      rw [hrec]
      simp only [List.length_cons, List.range_succ_eq_map, List.map_cons,
        List.map_map]
      congr 1
      apply List.map_congr_left
      intro i _
      simp only [Function.comp]
      congr 1
      omega

/-! Bridging lemmas for validation and recovery. -/

theorem missingFieldNames_isEmpty (info : CheckpointInfo) :
    (missingFieldNames info).isEmpty = requiredFieldsPresent info := by
  rcases info with ⟨a, b, c, d, e, _, _, _, _, _⟩
  cases a <;> cases b <;> cases c <;> cases d <;> cases e <;> rfl

theorem checks_any_fexists (proj : List (String × String))
    (rd : String → Bool) (l : List String) :
    ((l.dedup.map fun p =>
        (p, { fexists := fileExistsIn proj p
              readable := fileExistsIn proj p && rd p
              size := fileSizeIn proj p : FCheck })).any
      fun pc => !pc.2.fexists) = !(l.all (fileExistsIn proj)) := by
  rw [any_map_comp]
  show (l.dedup.any fun a => !(fileExistsIn proj a)) = _
  rw [any_dedup, any_not_eq_not_all]

theorem replay_foldl (cid : String) (env : REnv) (paths : List String) :
    ∀ acc : List String × List String × List String × List (String × String),
      (paths.foldl (replayOne cid env) acc).1 =
        acc.1 ++ paths.filter
          (fun p => (env.snapshot cid p).isSome && env.copy_ok p) ∧
      (paths.foldl (replayOne cid env) acc).2.1 =
        acc.2.1 ++ paths.filter
          (fun p => (env.snapshot cid p).isSome && !env.copy_ok p) := by
  induction paths with
  | nil => intro acc; simp
  | cons p rest ih =>
      intro acc
      obtain ⟨r, f, m, pj⟩ := acc
      cases hsnap : env.snapshot cid p with
      | none =>
          have h2 := ih (r, f, m ++ ["No snapshot found for " ++ p], pj)
          simp only [List.foldl_cons, replayOne, hsnap, List.filter_cons]
          simpa [hsnap] using h2
      | some content =>
          cases hcp : env.copy_ok p with
          | true =>
              have h2 := ih (r ++ [p], f, m,
                (pj.filter fun q => q.1 ≠ p) ++ [(p, content)])
              simp only [List.foldl_cons, replayOne, hsnap, hcp,
                List.filter_cons]
              simpa [hsnap, hcp] using h2
          | false =>
              have h2 := ih (r, f ++ [p], m ++ ["Failed to restore " ++ p], pj)
              simp only [List.foldl_cons, replayOne, hsnap, hcp,
                List.filter_cons]
              simpa [hsnap, hcp] using h2

theorem replayFiles_restored (cid : String) (env : REnv)
    (paths : List String) (proj : List (String × String)) :
    (replayFiles cid env paths proj).1 =
      paths.filter fun p => (env.snapshot cid p).isSome && env.copy_ok p := by
  have := (replay_foldl cid env paths ([], [], [], proj)).1
  simpa [replayFiles] using this

theorem replayFiles_failed (cid : String) (env : REnv)
    (paths : List String) (proj : List (String × String)) :
    (replayFiles cid env paths proj).2.1 =
      paths.filter fun p => (env.snapshot cid p).isSome && !env.copy_ok p := by
  have := (replay_foldl cid env paths ([], [], [], proj)).2
  simpa [replayFiles] using this

theorem createRecoveryBackup_fields (st : SysState) (env : REnv) :
    (createRecoveryBackup st env).2.stateFile = st.stateFile ∧
    (createRecoveryBackup st env).2.projectFiles = st.projectFiles ∧
    (createRecoveryBackup st env).2.recoveryLog = st.recoveryLog := by
  unfold createRecoveryBackup
  cases hsf : st.stateFile with
  | none => simp [hsf]
  | some s => cases env.backup_ok <;> simp [hsf]

/-- A recovery-feasible validation can only arise from a found, parsed
checkpoint file. -/
theorem feasible_found (files : List CPFile) (cid : String)
    (proj : List (String × String)) (rd : String → Bool)
    (h : (validateCheckpoint files cid proj rd).recovery_feasible = true) :
    ∃ f d, findCheckpointFile files cid = some f ∧ f.content = .ok d := by
  cases hf : findCheckpointFile files cid with
  | none =>
      exfalso
      rw [validateCheckpoint, hf] at h
      simp at h
  | some f =>
      cases hc : f.content with
      | error e =>
          exfalso
          rw [validateCheckpoint, hf] at h
          dsimp only at h
          rw [hc] at h
          simp at h
      | ok d => exact ⟨f, d, rfl, hc⟩

/-- When validation passes and the checkpoint file parses, the recovery
call runs the backup/restore/replay/log body. -/
theorem recover_eq_run (files : List CPFile) (cid : String) (st : SysState)
    (env : REnv) (f : CPFile) (d : CheckpointData)
    (hfeas : (validateCheckpoint files cid st.projectFiles
      env.readable).recovery_feasible = true)
    (hf : findCheckpointFile files cid = some f)
    (hc : f.content = .ok d) :
    recoverFromCheckpoint files cid st env = recoverRun cid st env d := by
  simp [recoverFromCheckpoint, hfeas, hf, hc]

theorem validateCheckpoint_found (files : List CPFile) (cid : String)
    (proj : List (String × String)) (rd : String → Bool) (f : CPFile)
    (d : CheckpointData) (hf : findCheckpointFile files cid = some f)
    (hc : f.content = .ok d) :
    validateCheckpoint files cid proj rd = validateParsed cid d proj rd := by
  unfold validateCheckpoint
  rw [hf]
  dsimp only
  rw [hc]

theorem validateParsed_integrity (cid : String) (d : CheckpointData)
    (proj : List (String × String)) (rd : String → Bool) :
    (validateParsed cid d proj rd).data_integrity =
      requiredFieldsPresent d.checkpoint := by
  simp only [validateParsed]
  exact missingFieldNames_isEmpty d.checkpoint

theorem validateParsed_valid (cid : String) (d : CheckpointData)
    (proj : List (String × String)) (rd : String → Bool) :
    (validateParsed cid d proj rd).valid =
      ((validateParsed cid d proj rd).issues.isEmpty &&
        (validateParsed cid d proj rd).data_integrity) := by
  simp only [validateParsed]
  cases hm : (missingFieldNames d.checkpoint).isEmpty <;> simp [hm]

theorem validateParsed_feasible (cid : String) (d : CheckpointData)
    (proj : List (String × String)) (rd : String → Bool) :
    (validateParsed cid d proj rd).recovery_feasible =
      ((validateParsed cid d proj rd).valid &&
        (allReferencedFiles d.checkpoint).all (fileExistsIn proj)) := by
  simp only [validateParsed]
  rw [checks_any_fexists]
  cases hall : (allReferencedFiles d.checkpoint).all (fileExistsIn proj) <;>
    simp [hall]

theorem validateParsed_warn (cid : String) (d : CheckpointData)
    (proj : List (String × String)) (rd : String → Bool)
    (h : (allReferencedFiles d.checkpoint).all (fileExistsIn proj) = false) :
    "Some referenced files are missing or inaccessible" ∈
      (validateParsed cid d proj rd).warnings := by
  simp only [validateParsed]
  rw [checks_any_fexists, h]
  simp

/-! ## Claim theorems -/

/-- Claim C1: whenever `validate_checkpoint` reports
`recovery_feasible = false`, `recover_from_checkpoint` returns
`success = false` and `state_restored = false`, copies the validator's
issues into its messages, and performs no mutation at all: the live
ProgressRecord, the backup directory, every project file and the recovery
log are identical before and after the call. -/
theorem claim_C1 (files : List CPFile) (cid : String) (st : SysState)
    (env : REnv)
    (hv : (validateCheckpoint files cid st.projectFiles
      env.readable).recovery_feasible = false) :
    (recoverFromCheckpoint files cid st env).1.success = false ∧
    (recoverFromCheckpoint files cid st env).1.state_restored = false ∧
    (recoverFromCheckpoint files cid st env).1.messages =
      "Checkpoint validation failed" ::
        (validateCheckpoint files cid st.projectFiles env.readable).issues ∧
    (recoverFromCheckpoint files cid st env).2 = st := by
  simp [recoverFromCheckpoint, hv]

/-- Witness for C1 at a checkpoint referencing a missing `src/app.py`. -/
theorem claim_C1_witness :
    (validateCheckpoint [sampleFileMissingFile] "CP001"
      sampleSys.projectFiles sampleEnv.readable).recovery_feasible = false ∧
    (recoverFromCheckpoint [sampleFileMissingFile] "CP001" sampleSys
      sampleEnv).2 = sampleSys :=
  ⟨by decide, (claim_C1 [sampleFileMissingFile] "CP001" sampleSys sampleEnv
    (by decide)).2.2.2⟩

/-- Claim C2 counterexample: with retention bound 1, three creations
interleaved with the cleanup pass that runs inside every creation write
the ids AUTO_CP001, AUTO_CP002, AUTO_CP002 — a duplicate id. -/
theorem claim_C2_counterexample : ¬ (runAuto 1 ["a", "b", "c"]).1.Nodup := by
  decide

/-- Claim C2 (amended): within a single daemon instance, written
checkpoint ids are pairwise distinct as long as the number of automatic
checkpoints never exceeds the retention maximum, so that the cleanup pass
deletes nothing; once pruning deletes old checkpoints, the count-then-write
allocation reuses earlier ids (see the counterexample). -/
theorem claim_C2 (maxC : Nat) (stamps : List String)
    (h : stamps.length ≤ maxC) :
    (runAuto maxC stamps).1 =
      (List.range stamps.length).map (fun i => autoIdStr (i + 1)) ∧
    (runAuto maxC stamps).1.Nodup := by
  have hids := runAuto'_ids maxC stamps [] 0 rfl
    (fun f hf => absurd hf (List.not_mem_nil f)) (by simpa using h)
  simp only [Nat.zero_add] at hids
  have hinj : Function.Injective (fun i : Nat => autoIdStr (i + 1)) := by
    intro a b hab
    have := autoIdStr_inj hab
    omega
  refine ⟨hids, ?_⟩
  show (runAuto' maxC stamps []).1.Nodup
  rw [show (runAuto' maxC stamps []).1 = _ from hids]
  exact (List.nodup_range _).map hinj

/-- Witness for C2 at two creations under retention bound 2. -/
theorem claim_C2_witness : (runAuto 2 ["a", "b"]).1.Nodup :=
  (claim_C2 2 ["a", "b"] (by decide)).2

/-- Claim C3: for a found, parsed checkpoint, `valid` equals (no critical
issues and `data_integrity`, i.e. the five required fields are present),
`recovery_feasible` equals (`valid` and every referenced file exists); a
missing referenced file only adds a warning and never an issue, so
`recovery_feasible` can be false while `valid` stays true. -/
theorem claim_C3 (files : List CPFile) (cid : String)
    (proj : List (String × String)) (rd : String → Bool) (f : CPFile)
    (d : CheckpointData) (hf : findCheckpointFile files cid = some f)
    (hc : f.content = .ok d) :
    (validateCheckpoint files cid proj rd).data_integrity =
      requiredFieldsPresent d.checkpoint ∧
    (validateCheckpoint files cid proj rd).valid =
      ((validateCheckpoint files cid proj rd).issues.isEmpty &&
        (validateCheckpoint files cid proj rd).data_integrity) ∧
    (validateCheckpoint files cid proj rd).recovery_feasible =
      ((validateCheckpoint files cid proj rd).valid &&
        (allReferencedFiles d.checkpoint).all (fileExistsIn proj)) ∧
    (∀ (proj2 : List (String × String)) (rd2 : String → Bool),
      (validateCheckpoint files cid proj2 rd2).issues =
        (validateCheckpoint files cid proj rd).issues) ∧
    ((allReferencedFiles d.checkpoint).all (fileExistsIn proj) = false →
      "Some referenced files are missing or inaccessible" ∈
        (validateCheckpoint files cid proj rd).warnings) ∧
    ((validateCheckpoint [sampleFileMissingFile] "CP001" []
        (fun _ => true)).valid = true ∧
     (validateCheckpoint [sampleFileMissingFile] "CP001" []
        (fun _ => true)).recovery_feasible = false) := by
  have hval : ∀ (proj2 : List (String × String)) (rd2 : String → Bool),
      validateCheckpoint files cid proj2 rd2 = validateParsed cid d proj2 rd2 :=
    fun proj2 rd2 => validateCheckpoint_found files cid proj2 rd2 f d hf hc
  refine ⟨?_, ?_, ?_, ?_, ?_, by decide, by decide⟩
  · rw [hval]; exact validateParsed_integrity cid d proj rd
  · rw [hval]; exact validateParsed_valid cid d proj rd
  · rw [hval]; exact validateParsed_feasible cid d proj rd
  · intro proj2 rd2
    rw [hval, hval]
    rfl
  · intro h
    rw [hval]
    exact validateParsed_warn cid d proj rd h

/-- Witness for C3 at the missing-file checkpoint: valid yet not
recovery-feasible. -/
theorem claim_C3_witness :
    (validateCheckpoint [sampleFileMissingFile] "CP001" []
      (fun _ => true)).data_integrity =
      requiredFieldsPresent sampleDataMissingFile.checkpoint :=
  (claim_C3 [sampleFileMissingFile] "CP001" [] (fun _ => true)
    sampleFileMissingFile sampleDataMissingFile (by decide) (by decide)).1

/-- Helper: when the log append succeeds, the recovery body appends
exactly one record to the recovery log. -/
theorem recoverRun_log (cid : String) (st : SysState) (env : REnv)
    (d : CheckpointData) (hlog : env.log_ok = true) :
    ∃ entry, (recoverRun cid st env d).2.recoveryLog =
      st.recoveryLog ++ [entry] := by
  rcases hrs : restoreStamp d.full_state cid
      (createRecoveryBackup st env).1 env with e | s'
  · simp only [recoverRun, hrs, hlog]
    simp only [(createRecoveryBackup_fields st env).2.2, if_true]
    exact ⟨_, rfl⟩
  · simp only [recoverRun, hrs, hlog]
    simp only [(createRecoveryBackup_fields st env).2.2, if_true]
    exact ⟨_, rfl⟩

/-- Claim C4 (for runs that pass validation): `success` equals
(`state_restored` and no failed files); a state-restore exception leaves
`state_restored = false`, is recorded in messages and does not prevent the
snapshot replay; a copy exception for one file adds exactly that file to
`files_failed` without aborting the rest. -/
theorem claim_C4 (files : List CPFile) (cid : String) (st : SysState)
    (env : REnv) (f : CPFile) (d : CheckpointData)
    (hf : findCheckpointFile files cid = some f)
    (hc : f.content = .ok d)
    (hfeas : (validateCheckpoint files cid st.projectFiles
      env.readable).recovery_feasible = true) :
    (recoverFromCheckpoint files cid st env).1.success =
      ((recoverFromCheckpoint files cid st env).1.state_restored &&
        (recoverFromCheckpoint files cid st env).1.files_failed.isEmpty) ∧
    (recoverFromCheckpoint files cid st env).1.files_restored =
      (allReferencedFiles d.checkpoint).filter
        (fun p => (env.snapshot cid p).isSome && env.copy_ok p) ∧
    (recoverFromCheckpoint files cid st env).1.files_failed =
      (allReferencedFiles d.checkpoint).filter
        (fun p => (env.snapshot cid p).isSome && !env.copy_ok p) ∧
    (∀ e, restoreStamp d.full_state cid (createRecoveryBackup st env).1 env =
        .error e →
      (recoverFromCheckpoint files cid st env).1.state_restored = false ∧
      ("Failed to restore progress state: " ++ e) ∈
        (recoverFromCheckpoint files cid st env).1.messages) ∧
    (∀ s', restoreStamp d.full_state cid (createRecoveryBackup st env).1 env =
        .ok s' →
      (recoverFromCheckpoint files cid st env).1.state_restored = true) := by
  rw [recover_eq_run files cid st env f d hfeas hf hc]
  refine ⟨?_, ?_, ?_, ?_, ?_⟩
  · rfl
  · simp only [recoverRun]
    rw [replayFiles_restored]
  · simp only [recoverRun]
    rw [replayFiles_failed]
  · intro e he
    constructor
    · simp [recoverRun, he, Except.toOption]
    · simp [recoverRun, he, Except.toOption, List.mem_append]
  · intro s' hs
    simp [recoverRun, hs, Except.toOption]

/-- Witness for C4 at a clean feasible checkpoint. -/
theorem claim_C4_witness :
    (recoverFromCheckpoint [sampleFileClean] "CP001" sampleSys
      sampleEnv).1.success =
      ((recoverFromCheckpoint [sampleFileClean] "CP001" sampleSys
        sampleEnv).1.state_restored &&
       (recoverFromCheckpoint [sampleFileClean] "CP001" sampleSys
        sampleEnv).1.files_failed.isEmpty) :=
  (claim_C4 [sampleFileClean] "CP001" sampleSys sampleEnv sampleFileClean
    sampleDataClean (by decide) (by decide) (by decide)).1

/-- Claim C5 counterexample: a call rejected by the feasibility gate
appends no record to the recovery log, so it is not the case that every
call appends exactly one record. -/
theorem claim_C5_counterexample :
    (recoverFromCheckpoint [sampleFileMissingFile] "CP001" sampleSys
      sampleEnv).2.recoveryLog.length ≠
      sampleSys.recoveryLog.length + 1 := by
  decide

/-- Claim C5 (amended): only calls that pass the feasibility validation
append a record to the recovery log — exactly one line, provided the log
append itself succeeds; rejected calls append nothing. -/
theorem claim_C5 (files : List CPFile) (cid : String) (st : SysState)
    (env : REnv) :
    ((validateCheckpoint files cid st.projectFiles
        env.readable).recovery_feasible = false →
      (recoverFromCheckpoint files cid st env).2.recoveryLog =
        st.recoveryLog) ∧
    ((validateCheckpoint files cid st.projectFiles
        env.readable).recovery_feasible = true →
      env.log_ok = true →
      ∃ entry, (recoverFromCheckpoint files cid st env).2.recoveryLog =
        st.recoveryLog ++ [entry]) := by
  constructor
  · intro hv
    simp [recoverFromCheckpoint, hv]
  · intro hv hlog
    obtain ⟨f, d, hf, hc⟩ := feasible_found files cid _ _ hv
    rw [recover_eq_run files cid st env f d hv hf hc]
    exact recoverRun_log cid st env d hlog

/-- Witness for C5 at a feasible checkpoint with a working log append. -/
theorem claim_C5_witness :
    ∃ entry, (recoverFromCheckpoint [sampleFileClean] "CP001" sampleSys
      sampleEnv).2.recoveryLog = sampleSys.recoveryLog ++ [entry] :=
  (claim_C5 [sampleFileClean] "CP001" sampleSys sampleEnv).2
    (by decide) (by decide)

/-- Claim C6: each decision cycle fires at most one reason, chosen in the
priority order TIME_BASED, ACTIVITY_BASED, STATE_CHANGE; on firing the
last-checkpoint time is reset to the cycle's current time and the change
counter to zero; a daemon at `T0+interval` with no file changes and an
unchanged ProgressRecord fires TIME_BASED exactly once before the timer
resets. -/
theorem claim_C6 (cfg : DaemonCfg) (ds : DaemonSt) (now : Nat)
    (cur : Option Nat) :
    (cfg.interval ≤ now - ds.last_checkpoint_time →
      (cycleStep cfg ds now cur).1 = some TriggerReason.TIME_BASED) ∧
    (now - ds.last_checkpoint_time < cfg.interval →
      cfg.threshold ≤ ds.file_change_count →
      (cycleStep cfg ds now cur).1 = some TriggerReason.ACTIVITY_BASED) ∧
    (now - ds.last_checkpoint_time < cfg.interval →
      ds.file_change_count < cfg.threshold →
      (stateChangedStep cur ds.last_state_hash).1 = true →
      (cycleStep cfg ds now cur).1 = some TriggerReason.STATE_CHANGE) ∧
    (now - ds.last_checkpoint_time < cfg.interval →
      ds.file_change_count < cfg.threshold →
      (stateChangedStep cur ds.last_state_hash).1 = false →
      (cycleStep cfg ds now cur).1 = none) ∧
    ((cycleStep cfg ds now cur).1.isSome = true →
      (cycleStep cfg ds now cur).2.last_checkpoint_time = now ∧
      (cycleStep cfg ds now cur).2.file_change_count = 0) ∧
    (∀ (t0 : Nat) (h : Option Nat),
      (cycleStep { interval := 1800, threshold := 3 }
        { last_checkpoint_time := t0, file_change_count := 0,
          last_state_hash := none } (t0 + 1800) h).1 =
        some TriggerReason.TIME_BASED ∧
      (cycleStep { interval := 1800, threshold := 3 }
        (cycleStep { interval := 1800, threshold := 3 }
          { last_checkpoint_time := t0, file_change_count := 0,
            last_state_hash := none } (t0 + 1800) h).2 (t0 + 1860) h).1 =
        none) := by
  refine ⟨?_, ?_, ?_, ?_, ?_, ?_⟩
  · intro h1
    simp [cycleStep, h1]
  · intro h1 h2
    simp only [cycleStep]
    rw [if_neg (by omega), if_pos h2]
  · intro h1 h2 h3
    simp only [cycleStep]
    rw [if_neg (by omega), if_neg (by omega)]
    rcases hsc : stateChangedStep cur ds.last_state_hash with ⟨chg, hh⟩
    rw [hsc] at h3
    simp at h3
    simp [h3]
  · intro h1 h2 h3
    simp only [cycleStep]
    rw [if_neg (by omega), if_neg (by omega)]
    rcases hsc : stateChangedStep cur ds.last_state_hash with ⟨chg, hh⟩
    rw [hsc] at h3
    simp at h3
    simp [h3]
  · intro hfire
    simp only [cycleStep] at hfire ⊢
    by_cases h1 : now - ds.last_checkpoint_time ≥ cfg.interval
    · rw [if_pos h1]
      exact ⟨rfl, rfl⟩
    · rw [if_neg h1] at hfire ⊢
      by_cases h2 : ds.file_change_count ≥ cfg.threshold
      · rw [if_pos h2]
        exact ⟨rfl, rfl⟩
      · rw [if_neg h2] at hfire ⊢
        cases hchg : (stateChangedStep cur ds.last_state_hash).1
        · rw [hchg] at hfire
          simp at hfire
        · exact ⟨rfl, rfl⟩
  · intro t0 h
    have hfirst : cycleStep { interval := 1800, threshold := 3 }
        { last_checkpoint_time := t0, file_change_count := 0,
          last_state_hash := none } (t0 + 1800) h =
        (some TriggerReason.TIME_BASED,
         { last_checkpoint_time := t0 + 1800, file_change_count := 0,
           last_state_hash := none }) := by
      simp [cycleStep, show (1800:Nat) ≤ t0 + 1800 - t0 by omega]
    rw [hfirst]
    refine ⟨rfl, ?_⟩
    simp only [cycleStep]
    rw [if_neg (by omega), if_neg (by omega)]
    cases h <;> simp [stateChangedStep]

/-- Witness for C6: the TIME_BASED branch fires at elapsed = interval. -/
theorem claim_C6_witness :
    (cycleStep { interval := 1800, threshold := 3 }
      { last_checkpoint_time := 0, file_change_count := 5,
        last_state_hash := none } 1800 none).1 =
      some TriggerReason.TIME_BASED :=
  (claim_C6 { interval := 1800, threshold := 3 }
    { last_checkpoint_time := 0, file_change_count := 5,
      last_state_hash := none } 1800 none).1 (by decide)

/-- Claim C7 counterexample: with one automatic entry already in the
ProgressRecord's checkpoints list, `checkpoint_save` allocates CP002 — it
counts all entries of the list, not only the manual CP records, so the
claimed allocator (count of manual records plus one, giving CP001)
disagrees with the code. -/
theorem claim_C7_counterexample :
    manualCheckpointId sampleState ≠ specManualCheckpointId sampleState := by
  decide

/-- Claim C7 (amended): an automatic creation allocates its id by counting
the files matching `AUTO_CP*.json` and adding one, while a manual
`checkpoint_save` counts all entries of the ProgressRecord's `checkpoints`
list — automatic entries included — and adds one; both counters are
rendered zero-padded to three digits. -/
theorem claim_C7 (maxC : Nat) (stamp : String) (store : List String)
    (s : FullState) :
    (createStep maxC stamp store).1 =
      autoIdStr ((store.filter globAuto).length + 1) ∧
    manualCheckpointId s = cpIdStr (s.checkpoints.length + 1) ∧
    (∀ n, n < 1000 → (pad3chars n).length = 3) :=
  ⟨rfl, rfl, fun n h => pad3chars_len n h⟩

/-- Witness for C7: the three-digit padded rendering at 7. -/
theorem claim_C7_witness : (pad3chars 7).length = 3 :=
  (claim_C7 0 "" [] {}).2.2 7 (by decide)

/-- Claim C8: recovering from a checkpoint that captured a ProgressRecord
verbatim restores a record whose business fields — phase, active task,
progress percentage — equal their captured values, differing only in the
freshly stamped recovery metadata (new session id, updated timestamps,
appended recovery_history entry). -/
theorem claim_C8 (files : List CPFile) (cid : String) (st : SysState)
    (env : REnv) (f : CPFile) (d : CheckpointData) (m : MetaB) (cs : SessB)
    (hf : findCheckpointFile files cid = some f)
    (hc : f.content = .ok d)
    (hfeas : (validateCheckpoint files cid st.projectFiles
      env.readable).recovery_feasible = true)
    (hm : d.full_state.metadata = some m)
    (hcs : d.full_state.current_session = some cs)
    (hw : env.write_ok = true) :
    (recoverFromCheckpoint files cid st env).1.state_restored = true ∧
    ∃ s', (recoverFromCheckpoint files cid st env).2.stateFile = some s' ∧
      s'.metadata.map (fun mm => mm.current_phase) = some m.current_phase ∧
      s'.metadata.map (fun mm => mm.overall_progress) =
        some m.overall_progress ∧
      s'.current_session.map (fun c => c.active_task) =
        some cs.active_task ∧
      s'.current_session.map (fun c => c.session_id) =
        some ("recovery_" ++ env.stamp) ∧
      s'.phases = d.full_state.phases ∧
      s'.checkpoints = d.full_state.checkpoints ∧
      s'.recovery_history = d.full_state.recovery_history ++
        [{ recovered_from := cid, recovery_time := env.now,
           previous_state_backed_up := (createRecoveryBackup st env).1 }] := by
  rw [recover_eq_run files cid st env f d hfeas hf hc]
  have hrs : restoreStamp d.full_state cid
      (createRecoveryBackup st env).1 env =
      .ok { d.full_state with
        metadata := some { m with last_updated := env.now }
        current_session := some
          { cs with session_id := "recovery_" ++ env.stamp
                    last_activity := env.now }
        recovery_history := d.full_state.recovery_history ++
          [{ recovered_from := cid, recovery_time := env.now,
             previous_state_backed_up := (createRecoveryBackup st env).1 }] } := by
    unfold restoreStamp
    rw [hm]
    dsimp only
    rw [hcs]
    dsimp only
    rw [hw]
    simp
  constructor
  · simp only [recoverRun, hrs]
    simp [Except.toOption]
  · refine ⟨{ d.full_state with
        metadata := some { m with last_updated := env.now }
        current_session := some
          { cs with session_id := "recovery_" ++ env.stamp
                    last_activity := env.now }
        recovery_history := d.full_state.recovery_history ++
          [{ recovered_from := cid, recovery_time := env.now,
             previous_state_backed_up := (createRecoveryBackup st env).1 }] },
      ?_, rfl, rfl, rfl, rfl, rfl, rfl, rfl⟩
    simp only [recoverRun, hrs]
    cases hl : env.log_ok <;> simp [hl]

/-- Witness for C8 at the clean feasible checkpoint. -/
theorem claim_C8_witness :
    (recoverFromCheckpoint [sampleFileClean] "CP001" sampleSys
      sampleEnv).1.state_restored = true :=
  (claim_C8 [sampleFileClean] "CP001" sampleSys sampleEnv sampleFileClean
    sampleDataClean sampleMeta sampleSess (by decide) (by decide) (by decide)
    (by decide) (by decide) (by decide)).1

/-- Claim C9: the shared change counter is accessed with no mutual
exclusion — `+= ` in the scan loop is a separate load and store, and the
decision loop's threshold read and its reset are separate statements — so
there is an interleaving of the two loops that loses increments: starting
from counter 3, the interleaving (decision read; scan read; scan write +2;
decision reset) ends with counter 0 and 3 observed at the fire, losing the
2 increments, while both serialized orders conserve every increment. -/
theorem claim_C9 :
    ¬ ctrConserved { c := 3 }
        [CtrAct.dread, CtrAct.mread, CtrAct.mwrite 2, CtrAct.dreset] ∧
    ctrConserved { c := 3 }
      [CtrAct.dread, CtrAct.dreset, CtrAct.mread, CtrAct.mwrite 2] ∧
    ctrConserved { c := 3 }
      [CtrAct.mread, CtrAct.mwrite 2, CtrAct.dread, CtrAct.dreset] := by
  refine ⟨?_, ?_, ?_⟩ <;> (unfold ctrConserved; decide)

theorem gatherEntries_stop (pre : List CPFile) (bad : CPFile)
    (post : List CPFile) (e : String)
    (hpre : ∀ f ∈ pre, ∃ d, f.content = .ok d)
    (hbad : bad.content = .error e) :
    gatherEntries (pre ++ bad :: post) = gatherEntries pre := by
  induction pre with
  | nil => simp [gatherEntries, hbad]
  | cons f rest ih =>
      obtain ⟨d, hd⟩ := hpre f (by simp)
      have hrest : ∀ g ∈ rest, ∃ d2, g.content = .ok d2 :=
        fun g hg => hpre g (by simp [hg])
      simp [gatherEntries, hd, ih hrest]

theorem findCheckpointFile_skip (pre : List CPFile) (bad : CPFile)
    (post : List CPFile) (e : String) (cid : String)
    (hbad : bad.content = .error e) :
    findCheckpointFile (pre ++ bad :: post) cid =
      findCheckpointFile (pre ++ post) cid := by
  induction pre with
  | nil => simp [findCheckpointFile, hbad]
  | cons f rest ih =>
      simp only [List.cons_append, findCheckpointFile]
      cases hfc : f.content with
      | error e2 => exact ih
      | ok d =>
          by_cases hid : d.checkpoint.checkpoint_id = some cid <;>
            simp [hid, ih]

/-- Claim C10: a file that fails to open or parse stops the
`list_checkpoints` enumeration — the entries gathered before it are
returned and everything after it is dropped, so `emergency_recovery`
never considers candidates past the corrupt file; `_find_checkpoint_file`,
by contrast, skips the unreadable file and continues scanning. -/
theorem claim_C10 (pre : List CPFile) (bad : CPFile) (post : List CPFile)
    (e : String) (cid : String)
    (hpre : ∀ f ∈ pre, ∃ d, f.content = .ok d)
    (hbad : bad.content = .error e) :
    listCheckpoints (pre ++ bad :: post) = listCheckpoints pre ∧
    emergencyCandidateIds (pre ++ bad :: post) = emergencyCandidateIds pre ∧
    findCheckpointFile (pre ++ bad :: post) cid =
      findCheckpointFile (pre ++ post) cid := by
  have hg := gatherEntries_stop pre bad post e hpre hbad
  refine ⟨?_, ?_, findCheckpointFile_skip pre bad post e cid hbad⟩
  · unfold listCheckpoints
    rw [hg]
  · unfold emergencyCandidateIds listCheckpoints
    rw [hg]

/-- Witness for C10: a corrupt file in the middle hides the later
checkpoint from `list_checkpoints`. -/
theorem claim_C10_witness :
    listCheckpoints ([sampleFileClean] ++ sampleBadFile ::
      [sampleFileMissingFile]) = listCheckpoints [sampleFileClean] :=
  (claim_C10 [sampleFileClean] sampleBadFile [sampleFileMissingFile]
    "Expecting value" "CP001"
    (by
      intro f hf
      rw [List.mem_singleton] at hf
      subst hf
      exact ⟨sampleDataClean, rfl⟩)
    rfl).1

end ClaudeCode
